import Mathlib

/-
  Verification of version_information.py (an IPython extension that collects
  and renders versions of installed modules).

  The Python source is shallowly embedded: the interpreter facts, the
  dynamic module loading, the pkg_resources registry and subprocess
  invocation are modelled as an environment whose fallible operations return
  Except String String (an exception becomes an error value carrying str(e));
  the mutable self.packages list becomes explicit state passing.
-/

namespace VersionInformation

/-- Embeds Python's line.replace(' ', '') from version_information, line 119:
every occurrence of the space character is removed (replacing a single
character by the empty string deletes exactly those characters). -/
def pyRemoveSpaces (line : String) : String :=
  (line.data.filter (fun c => c != ' ')).asString

/-- Helper for pySplitComma: accumulates the current field (reversed) while
scanning the character list. -/
def pySplitCommaAux : List Char → List Char → List String
  | [], acc => [acc.reverse.asString]
  | c :: rest, acc =>
    if c = ',' then acc.reverse.asString :: pySplitCommaAux rest []
    else pySplitCommaAux rest (c :: acc)

/-- Embeds Python's str.split(',') from version_information, line 119:
splitting on every comma; the empty string yields [""], adjacent commas
yield empty fields. -/
def pySplitComma (s : String) : List String :=
  pySplitCommaAux s.data []

/-- Embeds Python's platform.platform().replace('-', ' ') from
version_information, line 116: every hyphen becomes a space (a
single-character to single-character replacement is a character map). -/
def pyReplaceHyphens (s : String) : String :=
  (s.data.map (fun c => if c = '-' then ' ' else c)).asString

/-- Embeds Python's module.startswith('!') from version_information,
line 123. -/
def pyStartsWithBang (s : String) : Bool :=
  match s.data with
  | [] => false
  | c :: _ => c = '!'

/-- Embeds Python's module[1:] from version_information, line 124: drop the
first character. -/
def pyDropMarker (s : String) : String :=
  (s.data.drop 1).asString

/-- The ambient environment of one invocation: the interpreter and platform
facts used for the baseline records, and the three fallible external
operations used by the resolver. A Python exception e is modelled as
Except.error (str e). -/
structure Env where
  python_version : String
  architecture : String
  python_compiler : String
  ipython_version : String
  os_platform : String
  importVersion : String → Except String String
  pkg_resources : Option (String → Except String String)
  getoutput : String → Except String String

/-- Embeds get_non_python_package_version (lines 75-80): run
subprocess.getoutput(package + " --version"); on an exception the value is
"Package not found " + str(e). The record is appended to self.packages. -/
def get_non_python_package_version (env : Env) (package : String)
    (packages : List (String × String)) : List (String × String) :=
  match env.getoutput (package ++ " --version") with
  | .ok result => packages ++ [(package, result)]
  | .error e => packages ++ [(package, "Package not found " ++ e)]

/-- Embeds get_module_version (lines 83-97): try to import the module and
read str(module.__version__); on an exception e1, fall back to
pkg_resources.require(module)[0].version, re-raising e1 when pkg_resources
is None; the inner handler rebinds e, so when the fallback raises e2 the
recorded value is str(e2). The record is appended to self.packages. -/
def get_module_version (env : Env) (module : String)
    (packages : List (String × String)) : List (String × String) :=
  match env.importVersion module with
  | .ok version => packages ++ [(module, version)]
  | .error e1 =>
    match env.pkg_resources with
    | none => packages ++ [(module, e1)]
    | some req =>
      match req module with
      | .ok version => packages ++ [(module, version)]
      | .error e2 => packages ++ [(module, e2)]

/-- Embeds the initial self.packages assignment of version_information
(lines 110-117): the Python record "{version} {arch} [{compiler}]", the
IPython record, and the OS record with hyphens replaced by spaces. -/
def baselinePackages (env : Env) : List (String × String) :=
  [("Python",
      env.python_version ++ " " ++ env.architecture ++ " [" ++
        env.python_compiler ++ "]"),
   ("IPython", env.ipython_version),
   ("OS", pyReplaceHyphens env.os_platform)]

/-- Embeds the loop body of version_information (lines 121-126): skip empty
entries; a '!'-marked entry goes to get_non_python_package_version with the
marker removed, anything else to get_module_version. -/
def processModule (env : Env) (packages : List (String × String))
    (module : String) : List (String × String) :=
  if 0 < module.length then
    if pyStartsWithBang module then
      get_non_python_package_version env (pyDropMarker module) packages
    else
      get_module_version env module packages
  else
    packages

/-- Embeds the version_information line magic (lines 101-128): baseline
records, then one pass over line.replace(' ', '').split(","). -/
def version_information (env : Env) (line : String) :
    List (String × String) :=
  (pySplitComma (pyRemoveSpaces line)).foldl (processModule env)
    (baselinePackages env)

/-- Embeds the static method VersionInformation._htmltable_escape
(lines 140-156): CHARS.get(c, c) joined over the characters of the input.
Note the replacement table is the LaTeX one, identical to _latex_escape. -/
def _htmltable_escape (s : String) : String :=
  String.join (s.data.map (fun c =>
    if c = '&' then "\\&"
    else if c = '%' then "\\%"
    else if c = '$' then "\\$"
    else if c = '#' then "\\#"
    else if c = '_' then "\\_"
    else if c = '\x7b' then "\\letteropenbrace\x7b\x7d"
    else if c = '\x7d' then "\\letterclosebrace\x7b\x7d"
    else if c = '~' then "\\lettertilde\x7b\x7d"
    else if c = '^' then "\\letterhat\x7b\x7d"
    else if c = '\\' then "\\letterbackslash\x7b\x7d"
    else if c = '>' then "\\textgreater"
    else if c = '<' then "\\textless"
    else String.singleton c))

/-- Embeds the static method VersionInformation._latex_escape
(lines 175-191): CHARS.get(c, c) joined over the characters of the input. -/
def _latex_escape (s : String) : String :=
  String.join (s.data.map (fun c =>
    if c = '&' then "\\&"
    else if c = '%' then "\\%"
    else if c = '$' then "\\$"
    else if c = '#' then "\\#"
    else if c = '_' then "\\_"
    else if c = '\x7b' then "\\letteropenbrace\x7b\x7d"
    else if c = '\x7d' then "\\letterclosebrace\x7b\x7d"
    else if c = '~' then "\\lettertilde\x7b\x7d"
    else if c = '^' then "\\letterhat\x7b\x7d"
    else if c = '\\' then "\\letterbackslash\x7b\x7d"
    else if c = '>' then "\\textgreater"
    else if c = '<' then "\\textless"
    else String.singleton c))

/-- Embeds _repr_html_ (lines 158-173). The generation timestamp
time.strftime(timefmt) is passed in as a parameter (the Python 2 decode
fallback in the dead except branch is not modelled). -/
def _repr_html_ (packages : List (String × String)) (timestamp : String) :
    String :=
  let t := "<table>" ++ "<tr><th>Software</th><th>Version</th></tr>"
  let t := packages.foldl (fun acc p =>
    acc ++ ("<tr><td>" ++ p.1 ++ "</td><td>" ++ _htmltable_escape p.2 ++
      "</td></tr>")) t
  let t := t ++ ("<tr><td colspan=\x272\x27>" ++ timestamp ++ "</td></tr>")
  t ++ "</table>"

/-- Embeds _repr_latex_ (lines 193-210), timestamp passed as a parameter. -/
def _repr_latex_ (packages : List (String × String)) (timestamp : String) :
    String :=
  let t := "\\begin\x7btabular\x7d\x7b|l|l|\x7d\\hline" ++ "\n"
  let t := t ++ "\x7b\\bf Software\x7d & \x7b\\bf Version\x7d \\\\ \\hline\\hline" ++ "\n"
  let t := packages.foldl (fun acc p =>
    acc ++ ((p.1 ++ " & " ++ _latex_escape p.2 ++ " \\\\ \\hline") ++ "\n")) t
  let t := t ++ "\\hline \\multicolumn\x7b2\x7d\x7b|l|\x7d\x7b" ++ timestamp ++
    "\x7d \\\\ \\hline" ++ "\n"
  t ++ "\\end\x7btabular\x7d" ++ "\n"

/-- Embeds _repr_pretty_ (lines 212-224), timestamp passed as a parameter;
the call pp.text(text) displays exactly the built string. -/
def _repr_pretty_ (packages : List (String × String)) (timestamp : String) :
    String :=
  let t := "Software versions\n"
  let t := packages.foldl (fun acc p =>
    acc ++ (p.1 ++ " " ++ p.2 ++ "\n")) t
  t ++ timestamp

/-- Minimal JSON values, enough for the object _repr_json_ builds. -/
inductive Json where
  | str : String → Json
  | arr : List Json → Json
  | obj : List (String × Json) → Json

/-- Embeds the object built by _repr_json_ (lines 130-138). For IPython >= 3
the object itself is returned; for older IPython json.dumps of the same
object is returned; either way the rendering carries exactly this object and
no timestamp. -/
def _repr_json_ (packages : List (String × String)) : Json :=
  Json.obj [("Software versions",
    Json.arr (packages.map (fun p =>
      Json.obj [("module", Json.str p.1), ("version", Json.str p.2)])))]

/-- The keys of a top-level JSON object. -/
def Json.topKeys : Json → List String
  | Json.obj kvs => kvs.map (fun kv => kv.1)
  | _ => []

/-- Decodes one array element of the "Software versions" array back into a
(module, version) pair. -/
def decodeRecord : Json → Option (String × String)
  | Json.obj [("module", Json.str n), ("version", Json.str v)] => some (n, v)
  | _ => none

/-- Decodes a list of array elements back into record pairs, failing if any
element is malformed. -/
def decodeRecords : List Json → Option (List (String × String))
  | [] => some []
  | item :: rest =>
    match decodeRecord item, decodeRecords rest with
    | some p, some ps => some (p :: ps)
    | _, _ => none

/-- Parses the JSON rendering: expects a single-key object
"Software versions" holding an array of record objects. -/
def decodeSoftwareVersions : Json → Option (List (String × String))
  | Json.obj [("Software versions", Json.arr items)] => decodeRecords items
  | _ => none

/-- The value get_module_version records for a module: the imported
module's version, else the registry version, else the error string the
inner handler ends up holding. -/
def moduleValue (env : Env) (module : String) : String :=
  match env.importVersion module with
  | .ok version => version
  | .error e1 =>
    match env.pkg_resources with
    | none => e1
    | some req =>
      match req module with
      | .ok version => version
      | .error e2 => e2

/-- The value get_non_python_package_version records for a package. -/
def execValue (env : Env) (package : String) : String :=
  match env.getoutput (package ++ " --version") with
  | .ok result => result
  | .error e => "Package not found " ++ e

/-- The single record the loop body produces for one non-empty subject. -/
def resolveSubject (env : Env) (module : String) : String × String :=
  if pyStartsWithBang module then
    (pyDropMarker module, execValue env (pyDropMarker module))
  else
    (module, moduleValue env module)

lemma get_module_version_eq (env : Env) (module : String)
    (packages : List (String × String)) :
    get_module_version env module packages =
      packages ++ [(module, moduleValue env module)] := by
  unfold get_module_version moduleValue
  split
  · rfl
  · split
    · rfl
    · split
      · rfl
      · rfl

lemma get_non_python_package_version_eq (env : Env) (package : String)
    (packages : List (String × String)) :
    get_non_python_package_version env package packages =
      packages ++ [(package, execValue env package)] := by
  unfold get_non_python_package_version execValue
  split
  · rfl
  · rfl

lemma processModule_eq (env : Env) (packages : List (String × String))
    (module : String) :
    processModule env packages module =
      if 0 < module.length then packages ++ [resolveSubject env module]
      else packages := by
  unfold processModule resolveSubject
  by_cases h : 0 < module.length
  · rw [if_pos h, if_pos h]
    by_cases hb : pyStartsWithBang module = true
    · rw [if_pos hb, if_pos hb, get_non_python_package_version_eq]
    · rw [if_neg hb, if_neg hb, get_module_version_eq]
  · rw [if_neg h, if_neg h]

lemma foldl_processModule (env : Env) :
    ∀ (ms : List String) (packages : List (String × String)),
      ms.foldl (processModule env) packages =
        packages ++
          (ms.filter (fun m => decide (0 < m.length))).map
            (resolveSubject env)
  | [], packages => by simp
  | m :: ms, packages => by
    rw [List.foldl_cons, foldl_processModule env ms, processModule_eq]
    by_cases h : 0 < m.length
    · rw [if_pos h]
      simp [List.filter_cons, h]
    · rw [if_neg h]
      simp [List.filter_cons, h]

lemma version_information_eq (env : Env) (line : String) :
    version_information env line =
      baselinePackages env ++
        ((pySplitComma (pyRemoveSpaces line)).filter
          (fun m => decide (0 < m.length))).map (resolveSubject env) :=
  foldl_processModule env _ _

lemma foldl_append_shift :
    ∀ (l : List String) (a : String),
      l.foldl (fun r s => r ++ s) a = a ++ l.foldl (fun r s => r ++ s) ""
  | [], a => (String.append_empty a).symm
  | x :: l, a => by
    rw [List.foldl_cons, foldl_append_shift l (a ++ x), List.foldl_cons,
      foldl_append_shift l ("" ++ x), String.empty_append,
      String.append_assoc]

lemma join_cons (s : String) (l : List String) :
    String.join (s :: l) = s ++ String.join l := by
  unfold String.join
  rw [List.foldl_cons, foldl_append_shift l ("" ++ s), String.empty_append]

lemma foldl_append_row (f : α → String) :
    ∀ (l : List α) (a : String),
      l.foldl (fun acc x => acc ++ f x) a = a ++ String.join (l.map f)
  | [], a => by
    rw [List.foldl_nil, List.map_nil]
    exact (String.append_empty a).symm
  | x :: l, a => by
    rw [List.foldl_cons, foldl_append_row f l (a ++ f x), List.map_cons,
      join_cons, String.append_assoc]

lemma repr_html_eq (packages : List (String × String)) (timestamp : String) :
    _repr_html_ packages timestamp =
      "<table>" ++ "<tr><th>Software</th><th>Version</th></tr>" ++
        String.join (packages.map (fun p =>
          "<tr><td>" ++ p.1 ++ "</td><td>" ++ _htmltable_escape p.2 ++
            "</td></tr>")) ++
        ("<tr><td colspan=\x272\x27>" ++ timestamp ++ "</td></tr>") ++
        "</table>" := by
  dsimp only [_repr_html_]
  rw [foldl_append_row (fun p : String × String =>
    "<tr><td>" ++ p.1 ++ "</td><td>" ++ _htmltable_escape p.2 ++
      "</td></tr>") packages]

lemma repr_latex_eq (packages : List (String × String)) (timestamp : String) :
    _repr_latex_ packages timestamp =
      "\\begin\x7btabular\x7d\x7b|l|l|\x7d\\hline" ++ "\n" ++
        "\x7b\\bf Software\x7d & \x7b\\bf Version\x7d \\\\ \\hline\\hline" ++ "\n" ++
        String.join (packages.map (fun p =>
          (p.1 ++ " & " ++ _latex_escape p.2 ++ " \\\\ \\hline") ++ "\n")) ++
        ("\\hline \\multicolumn\x7b2\x7d\x7b|l|\x7d\x7b" ++ timestamp ++
          "\x7d \\\\ \\hline" ++ "\n") ++
        "\\end\x7btabular\x7d" ++ "\n" := by
  dsimp only [_repr_latex_]
  rw [foldl_append_row (fun p : String × String =>
    (p.1 ++ " & " ++ _latex_escape p.2 ++ " \\\\ \\hline") ++ "\n") packages]
  simp [String.append_assoc]

lemma repr_pretty_eq (packages : List (String × String))
    (timestamp : String) :
    _repr_pretty_ packages timestamp =
      "Software versions\n" ++
        String.join (packages.map (fun p => p.1 ++ " " ++ p.2 ++ "\n")) ++
        timestamp := by
  dsimp only [_repr_pretty_]
  rw [foldl_append_row (fun p : String × String =>
    p.1 ++ " " ++ p.2 ++ "\n") packages]

/-- A concrete environment for evaluating the embedding: every module import
and every subprocess invocation fails, and no package registry is
available. -/
def env0 : Env where
  python_version := "3.9.0"
  architecture := "64bit"
  python_compiler := "GCC 9.4.0"
  ipython_version := "7.30.0"
  os_platform := "Linux-5.4.0-x86_64"
  importVersion := fun _ => Except.error "import error"
  pkg_resources := none
  getoutput := fun _ => Except.error "spawn error"

/-- A concrete environment in which the module import fails with one error
and the package-registry lookup fails with a different error. -/
def envC1 : Env where
  python_version := "3.9.0"
  architecture := "64bit"
  python_compiler := "GCC 9.4.0"
  ipython_version := "7.30.0"
  os_platform := "Linux-5.4.0-x86_64"
  importVersion := fun _ => Except.error "No module named sphinx"
  pkg_resources := some (fun _ => Except.error "DistributionNotFound sphinx")
  getoutput := fun _ => Except.error "spawn error"

/-- Modelled from the spec: standard HTML escaping of a string (what the
html module the source imports, but never calls, would produce on the
characters relevant here), used to state what the spec says the HTML
formatter applies to version values. -/
def html_escape_spec (s : String) : String :=
  String.join (s.data.map (fun c =>
    if c = '&' then "&amp;"
    else if c = '<' then "&lt;"
    else if c = '>' then "&gt;"
    else String.singleton c))

/-- Modelled from the claim's wording: removal of all whitespace characters
from the input line; the code itself removes only the space character. -/
def stripAllWhitespace (s : String) : String :=
  (s.data.filter (fun c => !c.isWhitespace)).asString

lemma decodeRecords_map (ps : List (String × String)) :
    decodeRecords (ps.map (fun p =>
      Json.obj [("module", Json.str p.1), ("version", Json.str p.2)])) =
      some ps := by
  induction ps with
  | nil => rfl
  | cons p ps ih => simp [decodeRecords, decodeRecord, ih]

/-- Claim C1 counterexample: in an environment where importing "sphinx"
fails with one error and the pkg_resources lookup fails with a different
error, the recorded value is the metadata-lookup error, not the
module-import error: the inner except-handler rebinds e, so str(e) is the
second exception. -/
theorem fallback_error_order_cex :
    envC1.importVersion "sphinx" = Except.error "No module named sphinx" ∧
    envC1.pkg_resources.map (fun req => req "sphinx") =
      some (Except.error "DistributionNotFound sphinx") ∧
    get_module_version envC1 "sphinx" [] =
      [("sphinx", "DistributionNotFound sphinx")] ∧
    "DistributionNotFound sphinx" ≠ "No module named sphinx" := by
  refine ⟨rfl, rfl, rfl, ?_⟩
  decide

/-- Claim C1 (amended): when the module-import step fails with e1, the
recorded value is e1 only if pkg_resources is None; when the registry is
available and its lookup fails with e2, the recorded value is e2 (the
second error). -/
theorem fallback_error_order_amended (env : Env) (module : String)
    (packages : List (String × String)) (e1 : String)
    (h1 : env.importVersion module = Except.error e1) :
    (env.pkg_resources = none →
      get_module_version env module packages = packages ++ [(module, e1)]) ∧
    (∀ req e2, env.pkg_resources = some req →
      req module = Except.error e2 →
      get_module_version env module packages = packages ++ [(module, e2)]) := by
  constructor
  · intro hp
    simp [get_module_version, h1, hp]
  · intro req e2 hp h2
    simp [get_module_version, h1, hp, h2]

/-- Witness for C1's amended theorem at the concrete environment envC1. -/
theorem fallback_error_order_witness :
    get_module_version envC1 "sphinx" [] =
      [("sphinx", "DistributionNotFound sphinx")] :=
  (fallback_error_order_amended envC1 "sphinx" [] "No module named sphinx"
    rfl).2 (fun _ => Except.error "DistributionNotFound sphinx")
    "DistributionNotFound sphinx" rfl rfl

/-- Claim C2: the HTML rendering does not HTML-escape the version value; it
runs the value through the LaTeX replacement table, so "<" becomes
"\textless" in the HTML cell rather than "&lt;". -/
theorem html_rendering_not_html_escaped :
    _htmltable_escape "<" = "\\textless" ∧
    html_escape_spec "<" = "&lt;" ∧
    _htmltable_escape "<" ≠ html_escape_spec "<" ∧
    _repr_html_ [("x", "<")] "T" =
      "<table><tr><th>Software</th><th>Version</th></tr><tr><td>x</td><td>\\textless</td></tr><tr><td colspan=\x272\x27>T</td></tr></table>" := by
  refine ⟨?_, ?_, ?_, ?_⟩ <;> decide

/-- Claim C3: the plain-text rendering has no blank line between the last
record line and the timestamp line, although the module's own docstring
example shows one. -/
theorem pretty_missing_blank_line :
    _repr_pretty_
        [("Python", "3.9.0"), ("IPython", "7.30.0"), ("OS", "posix")]
        "Mon Dec 09 10:21:40 2013 CST" =
      "Software versions\nPython 3.9.0\nIPython 7.30.0\nOS posix\nMon Dec 09 10:21:40 2013 CST" ∧
    _repr_pretty_
        [("Python", "3.9.0"), ("IPython", "7.30.0"), ("OS", "posix")]
        "Mon Dec 09 10:21:40 2013 CST" ≠
      "Software versions\nPython 3.9.0\nIPython 7.30.0\nOS posix\n\nMon Dec 09 10:21:40 2013 CST" := by
  refine ⟨?_, ?_⟩ <;> decide

/-- Claim C4 counterexample: for the input line consisting of one tab
character, the code removes only spaces, so the tab survives as a non-empty
subject and 4 records are produced; under the claim's whitespace-stripping
reading the count would be 3. -/
theorem tab_not_stripped_cex :
    (version_information env0 "\t").length = 4 ∧
    ((pySplitComma (stripAllWhitespace "\t")).filter
      (fun m => decide (0 < m.length))).length = 0 ∧
    (version_information env0 "\t").length ≠
      3 + ((pySplitComma (stripAllWhitespace "\t")).filter
        (fun m => decide (0 < m.length))).length := by
  refine ⟨?_, ?_, ?_⟩ <;> decide

/-- Claim C4 (amended): after space characters are removed and the line is
split on commas, the record sequence is the 3 baseline records followed by
exactly one record per non-empty subject, in input order; empty subjects
are skipped, so the length is 3 plus the number of non-empty subjects. -/
theorem record_count_amended (env : Env) (line : String) :
    (version_information env line).length =
      3 + ((pySplitComma (pyRemoveSpaces line)).filter
        (fun m => decide (0 < m.length))).length ∧
    version_information env line =
      baselinePackages env ++
        ((pySplitComma (pyRemoveSpaces line)).filter
          (fun m => decide (0 < m.length))).map (resolveSubject env) := by
  refine ⟨?_, version_information_eq env line⟩
  rw [version_information_eq]
  simp [baselinePackages]
  omega

/-- Claim C5: both resolvers are total functions of the environment and
subject (no exception escapes: every failure is folded into the value
string), and each appends exactly one record whose subject is the given
name. -/
theorem resolver_total (env : Env) (subject : String)
    (packages : List (String × String)) :
    (∃ v, get_module_version env subject packages =
      packages ++ [(subject, v)]) ∧
    (∃ v, get_non_python_package_version env subject packages =
      packages ++ [(subject, v)]) :=
  ⟨⟨moduleValue env subject, get_module_version_eq env subject packages⟩,
   ⟨execValue env subject,
     get_non_python_package_version_eq env subject packages⟩⟩

/-- Claim C6: the JSON rendering is a one-key object ("Software versions")
holding an array of module/version objects, with no timestamp anywhere in
the structure, and decoding it recovers the record sequence exactly. -/
theorem json_roundtrip (packages : List (String × String)) :
    decodeSoftwareVersions (_repr_json_ packages) = some packages ∧
    Json.topKeys (_repr_json_ packages) = ["Software versions"] := by
  refine ⟨?_, rfl⟩
  simp [decodeSoftwareVersions, _repr_json_, decodeRecords_map]

/-- Claim C7: for every environment and input line, the record sequence
starts with the Python record (version, architecture and compiler), the
IPython record and the OS record (hyphens replaced by spaces), in this
order, before any user-requested subject. -/
theorem baseline_records_first (env : Env) (line : String) :
    ∃ rest,
      version_information env line =
        ("Python", env.python_version ++ " " ++ env.architecture ++ " [" ++
            env.python_compiler ++ "]") ::
          ("IPython", env.ipython_version) ::
          ("OS", pyReplaceHyphens env.os_platform) :: rest ∧
      rest = ((pySplitComma (pyRemoveSpaces line)).filter
        (fun m => decide (0 < m.length))).map (resolveSubject env) := by
  refine ⟨_, ?_, rfl⟩
  rw [version_information_eq]
  rfl

/-- Claim C8: a '!'-marked subject is resolved by invoking the demarked
name with " --version"; the captured output, or "Package not found " plus
the error text on failure, becomes the value; the recorded subject is the
name without the marker, and exactly one record is appended. -/
theorem exec_marker_resolution (env : Env) (module : String)
    (packages : List (String × String))
    (h1 : pyStartsWithBang module = true) (h2 : 0 < module.length) :
    processModule env packages module =
      packages ++ [(pyDropMarker module,
        match env.getoutput (pyDropMarker module ++ " --version") with
        | Except.ok result => result
        | Except.error e => "Package not found " ++ e)] := by
  unfold processModule
  rw [if_pos h2, if_pos h1, get_non_python_package_version_eq]
  rfl

/-- Witness for C8's theorem at the concrete environment env0 and the
subject "!git". -/
theorem exec_marker_resolution_witness :
    processModule env0 [] "!git" =
      [("git", "Package not found spawn error")] :=
  (exec_marker_resolution env0 "!git" [] (by decide) (by decide)).trans
    (by decide)

/-- Claim C9: _htmltable_escape and _latex_escape are extensionally equal:
they apply the identical character-replacement table. -/
theorem escape_functions_extensionally_equal (s : String) :
    _htmltable_escape s = _latex_escape s := rfl

/-- Claim C10: in both the HTML and the LaTeX renderings, every row
interpolates the record's subject name verbatim (p.1, unescaped) while only
the version value passes through the escape function. -/
theorem names_inserted_verbatim (packages : List (String × String))
    (timestamp : String) :
    _repr_html_ packages timestamp =
      "<table>" ++ "<tr><th>Software</th><th>Version</th></tr>" ++
        String.join (packages.map (fun p =>
          "<tr><td>" ++ p.1 ++ "</td><td>" ++ _htmltable_escape p.2 ++
            "</td></tr>")) ++
        ("<tr><td colspan=\x272\x27>" ++ timestamp ++ "</td></tr>") ++
        "</table>" ∧
    _repr_latex_ packages timestamp =
      "\\begin\x7btabular\x7d\x7b|l|l|\x7d\\hline" ++ "\n" ++
        "\x7b\\bf Software\x7d & \x7b\\bf Version\x7d \\\\ \\hline\\hline" ++ "\n" ++
        String.join (packages.map (fun p =>
          (p.1 ++ " & " ++ _latex_escape p.2 ++ " \\\\ \\hline") ++ "\n")) ++
        ("\\hline \\multicolumn\x7b2\x7d\x7b|l|\x7d\x7b" ++ timestamp ++
          "\x7d \\\\ \\hline" ++ "\n") ++
        "\\end\x7btabular\x7d" ++ "\n" :=
  ⟨repr_html_eq packages timestamp, repr_latex_eq packages timestamp⟩

end VersionInformation
